import Mathlib

/-!
# Chiaki GUI: controller manager and gamepad capture dialog

A shallow embedding of `gui/src/controllermanager.cpp` and
`gui/src/settingsgamepadcapturedialog.cpp`.

* The compile-time switch `CHIAKI_GUI_ENABLE_SDL_GAMECONTROLLER` is the Boolean
  argument `sdlEnabled` of every function whose body contains the `#ifdef`.
* The native input subsystem (SDL) is a record `SDL` of the answers it gives to
  the queries the sources make.
* Qt containers are association lists / duplicate-free lists with the
  operations the sources call.
* Qt signals are values of `Signal`; a function that emits returns the list of
  emitted signals in emission order.
* Where a C++ function flows off its end without a `return`, the value the
  caller receives is not fixed by the sources; it is an argument of the
  embedding, and every statement holds whatever that value is.
-/

namespace Chiaki

/-! ## Types declared outside the translated files -/

/-- Logical buttons of `ChiakiControllerButton` that the sources name. -/
inductive ChiakiControllerButton where
  | CHIAKI_CONTROLLER_BUTTON_NONE
  | CHIAKI_CONTROLLER_BUTTON_CROSS
  | CHIAKI_CONTROLLER_BUTTON_MOON
  | CHIAKI_CONTROLLER_BUTTON_BOX
  | CHIAKI_CONTROLLER_BUTTON_PYRAMID
  | CHIAKI_CONTROLLER_BUTTON_DPAD_LEFT
  | CHIAKI_CONTROLLER_BUTTON_DPAD_RIGHT
  | CHIAKI_CONTROLLER_BUTTON_DPAD_UP
  | CHIAKI_CONTROLLER_BUTTON_DPAD_DOWN
  | CHIAKI_CONTROLLER_BUTTON_L1
  | CHIAKI_CONTROLLER_BUTTON_R1
  | CHIAKI_CONTROLLER_BUTTON_L3
  | CHIAKI_CONTROLLER_BUTTON_R3
  | CHIAKI_CONTROLLER_BUTTON_OPTIONS
  | CHIAKI_CONTROLLER_BUTTON_TOUCHPAD
  | CHIAKI_CONTROLLER_BUTTON_PS
  deriving DecidableEq, Repr

/-- Native button codes of `SDL_GameControllerButton` that the sources name. -/
inductive SDL_GameControllerButton where
  | SDL_CONTROLLER_BUTTON_A
  | SDL_CONTROLLER_BUTTON_B
  | SDL_CONTROLLER_BUTTON_X
  | SDL_CONTROLLER_BUTTON_Y
  | SDL_CONTROLLER_BUTTON_BACK
  | SDL_CONTROLLER_BUTTON_GUIDE
  | SDL_CONTROLLER_BUTTON_START
  | SDL_CONTROLLER_BUTTON_LEFTSTICK
  | SDL_CONTROLLER_BUTTON_RIGHTSTICK
  | SDL_CONTROLLER_BUTTON_LEFTSHOULDER
  | SDL_CONTROLLER_BUTTON_RIGHTSHOULDER
  | SDL_CONTROLLER_BUTTON_DPAD_UP
  | SDL_CONTROLLER_BUTTON_DPAD_DOWN
  | SDL_CONTROLLER_BUTTON_DPAD_LEFT
  | SDL_CONTROLLER_BUTTON_DPAD_RIGHT
  deriving DecidableEq, Repr

/-- Native analog axes of `SDL_GameControllerAxis` that the sources name. -/
inductive SDL_GameControllerAxis where
  | SDL_CONTROLLER_AXIS_LEFTX
  | SDL_CONTROLLER_AXIS_LEFTY
  | SDL_CONTROLLER_AXIS_RIGHTX
  | SDL_CONTROLLER_AXIS_RIGHTY
  | SDL_CONTROLLER_AXIS_TRIGGERLEFT
  | SDL_CONTROLLER_AXIS_TRIGGERRIGHT
  deriving DecidableEq, Repr

/-- Event types that `HandleEvents` switches on; every other type is
`SDL_OTHEREVENT`. -/
inductive SDL_EventType where
  | SDL_JOYDEVICEADDED
  | SDL_JOYDEVICEREMOVED
  | SDL_CONTROLLERBUTTONUP
  | SDL_CONTROLLERBUTTONDOWN
  | SDL_CONTROLLERAXISMOTION
  | SDL_OTHEREVENT
  deriving DecidableEq, Repr

open ChiakiControllerButton SDL_GameControllerButton SDL_GameControllerAxis SDL_EventType

/-- The fields of `SDL_ControllerButtonEvent` that the sources read. -/
structure SDL_ControllerButtonEvent where
  type : SDL_EventType
  which : Int
  button : SDL_GameControllerButton
  deriving DecidableEq, Repr

/-- An `SDL_Event` is a union whose members share the leading `type` field;
`which` and `button` are the bytes read through the `cbutton` member. -/
structure SDL_Event where
  type : SDL_EventType
  which : Int
  button : SDL_GameControllerButton
  deriving DecidableEq, Repr

/-- The `cbutton` member of the event union. -/
def SDL_Event.cbutton (event : SDL_Event) : SDL_ControllerButtonEvent :=
  { type := event.type, which := event.which, button := event.button }

/-- A native device handle (`SDL_GameController *`, non-null). -/
abbrev SDL_GameController := Nat

/-- One entry of the native device list, addressed by its index. -/
structure SDL_Joystick where
  /-- Result of `SDL_JoystickGetDeviceInstanceID(i)`. -/
  instanceID : Int
  /-- Result of `SDL_IsGameController(i)`. -/
  isGameController : Bool
  /-- Result of `SDL_GameControllerOpen(i)`; `none` is a null pointer. -/
  opened : Option SDL_GameController
  deriving DecidableEq, Repr

/-- The answers of the native input subsystem to the queries the sources make. -/
structure SDL where
  /-- The device list; its length is `SDL_NumJoysticks()`. -/
  joysticks : List SDL_Joystick
  SDL_GameControllerGetButton : SDL_GameController → SDL_GameControllerButton → Bool
  SDL_GameControllerGetAxis : SDL_GameController → SDL_GameControllerAxis → Int
  SDL_GameControllerName : SDL_GameController → String
  SDL_GameControllerGetAttached : SDL_GameController → Bool

/-- The fields of `ChiakiControllerState` that `GetState` writes. -/
structure ChiakiControllerState where
  buttons : Nat
  l2_state : Nat
  r2_state : Nat
  left_x : Int
  left_y : Int
  right_x : Int
  right_y : Int
  deriving DecidableEq, Repr

/-! ## Qt containers -/

/-- A `QMap<int, V>`: at most one value per key. -/
abbrev QMap (V : Type) := List (Int × V)

/-- Embedding of `QMap::contains`. -/
def QMap.contains {V : Type} (m : QMap V) (key : Int) : Bool :=
  m.any (fun kv => kv.1 == key)

/-- Embedding of `QMap::find`, `none` standing for `end()`. -/
def QMap.find {V : Type} (m : QMap V) (key : Int) : Option V :=
  match m with
  | [] => none
  | kv :: rest => if kv.1 = key then some kv.2 else QMap.find rest key

/-- Embedding of `QMap::remove`. -/
def QMap.remove {V : Type} (m : QMap V) (key : Int) : QMap V :=
  m.filter (fun kv => kv.1 != key)

/-- Assignment through `QMap::operator[]`: replaces the value stored under
`key`, or adds the pair. -/
def QMap.assign {V : Type} (m : QMap V) (key : Int) (value : V) : QMap V :=
  (key, value) :: QMap.remove m key

/-- A `QHash<ChiakiControllerButton, ChiakiControllerButton>`. -/
abbrev ButtonMap := List (ChiakiControllerButton × ChiakiControllerButton)

/-- Embedding of `QHash::value(key, defaultValue)`. -/
def ButtonMap.value (m : ButtonMap) (key defaultValue : ChiakiControllerButton) :
    ChiakiControllerButton :=
  match m with
  | [] => defaultValue
  | kv :: rest => if kv.1 = key then kv.2 else ButtonMap.value rest key defaultValue

/-- A `QSet<SDL_JoystickID>`: its members in iteration order. -/
abbrev QSet := List Int

/-- Embedding of `QSet::insert`. -/
def QSet.insert (s : QSet) (x : Int) : QSet :=
  if x ∈ s then s else s ++ [x]

/-- Embedding of `operator!=` of `QSet`: the two sets do not have the same members. -/
def QSet.ne (a b : QSet) : Bool :=
  !(a.all (fun x => decide (x ∈ b)) && b.all (fun x => decide (x ∈ a)))

/-- Embedding of `QSet::values`. -/
def QSet.values (s : QSet) : List Int := s

/-! ## Signals -/

/-- Qt signals emitted by the translated classes; a Controller signal carries
the device id of the emitting Controller. -/
inductive Signal where
  | AvailableControllersUpdated
  | StateChanged (sender : Int)
  | ButtonPressed (sender : Int) (button : ChiakiControllerButton)
  | ButtonCaptured (button : ChiakiControllerButton)
  deriving DecidableEq, Repr

/-- Payloads of the `ButtonPressed` signals of a trace, in order. -/
def pressedPayloads : List Signal → List ChiakiControllerButton
  | [] => []
  | Signal.ButtonPressed _ b :: rest => b :: pressedPayloads rest
  | _ :: rest => pressedPayloads rest

/-- Payloads of the `ButtonCaptured` signals of a trace, in order. -/
def capturedPayloads : List Signal → List ChiakiControllerButton
  | [] => []
  | Signal.ButtonCaptured b :: rest => b :: capturedPayloads rest
  | _ :: rest => capturedPayloads rest

/-- Number of `StateChanged` signals of a trace. -/
def stateChangedCount : List Signal → Nat
  | [] => 0
  | Signal.StateChanged _ :: rest => stateChangedCount rest + 1
  | _ :: rest => stateChangedCount rest

/-! ## Controller and ControllerManager -/

/-- The data members of `Controller`. `controller` is the native handle
(`none` is a null pointer; the member exists only when the backend is
compiled in). -/
structure Controller where
  id : Int
  controller : Option SDL_GameController
  mapping : ButtonMap
  deriving DecidableEq, Repr

/-- The data members of `ControllerManager`. -/
structure ControllerManager where
  available_controllers : QSet
  open_controllers : QMap Controller
  deriving DecidableEq, Repr

/-- Embedding of `Controller::Controller(int device_id, ControllerManager *manager)`. -/
def Controller.new (sdlEnabled : Bool) (sdl : SDL) (device_id : Int) : Controller :=
  { id := device_id
    controller :=
      if sdlEnabled then
        match sdl.joysticks.find? (fun j => j.instanceID == device_id) with
        | some j => j.opened
        | none => none
      else none
    mapping := [] }

/-- Embedding of `Controller::GetDeviceID`. -/
def Controller.GetDeviceID (sdlEnabled : Bool) (c : Controller) : Int :=
  if sdlEnabled then c.id else -1

/-- Embedding of `Controller::GetName`; a null C string converts to the empty `QString`. -/
def Controller.GetName (sdlEnabled : Bool) (sdl : SDL) (c : Controller) : String :=
  if sdlEnabled then
    match c.controller with
    | none => ""
    | some h => sdl.SDL_GameControllerName h
  else ""

/-- Embedding of `Controller::IsConnected`. -/
def Controller.IsConnected (sdlEnabled : Bool) (sdl : SDL) (c : Controller) : Bool :=
  if sdlEnabled then
    match c.controller with
    | none => false
    | some h => sdl.SDL_GameControllerGetAttached h
  else false

/-- Embedding of `Controller::SetMapping`. -/
def Controller.SetMapping (c : Controller) (map : ButtonMap) : Controller :=
  { c with mapping := map }

/-- Embedding of `Controller::mapped`. -/
def Controller.mapped (c : Controller) (input : ChiakiControllerButton) :
    ChiakiControllerButton :=
  c.mapping.value input input

/-- Embedding of `ControllerManager::OpenController`; the first component is the returned
pointer (`none` is `nullptr`). -/
def ControllerManager.OpenController (sdlEnabled : Bool) (sdl : SDL)
    (m : ControllerManager) (device_id : Int) : Option Controller × ControllerManager :=
  if m.open_controllers.contains device_id then
    (none, m)
  else
    let controller := Controller.new sdlEnabled sdl device_id
    (some controller,
      { m with open_controllers := m.open_controllers.assign device_id controller })

/-- Embedding of `ControllerManager::ControllerClosed`. -/
def ControllerManager.ControllerClosed (sdlEnabled : Bool) (m : ControllerManager)
    (controller : Controller) : ControllerManager :=
  { m with open_controllers :=
      m.open_controllers.remove (controller.GetDeviceID sdlEnabled) }

/-- Embedding of `Controller::~Controller`: the native handle, if held, is closed (no effect
on the Manager) and the Manager is notified. -/
def Controller.destroy (sdlEnabled : Bool) (m : ControllerManager) (c : Controller) :
    ControllerManager :=
  m.ControllerClosed sdlEnabled c

/-- Embedding of `ControllerManager::GetAvailableControllers`. -/
def ControllerManager.GetAvailableControllers (sdlEnabled : Bool) (m : ControllerManager) :
    List Int :=
  if sdlEnabled then m.available_controllers.values else []

/-- The loop of `UpdateAvailableControllers`: the instance ids of the entries
of the device list that are game controllers. -/
def enumerateControllers (sdl : SDL) : QSet :=
  sdl.joysticks.foldl
    (fun current_controllers j =>
      if !j.isGameController then current_controllers
      else QSet.insert current_controllers j.instanceID)
    []

/-- Embedding of `ControllerManager::UpdateAvailableControllers`. -/
def ControllerManager.UpdateAvailableControllers (sdlEnabled : Bool) (sdl : SDL)
    (m : ControllerManager) : ControllerManager × List Signal :=
  if sdlEnabled then
    let current_controllers := enumerateControllers sdl
    if QSet.ne current_controllers m.available_controllers then
      ({ m with available_controllers := current_controllers },
        [Signal.AvailableControllersUpdated])
    else (m, [])
  else (m, [])

/-- Embedding of `ControllerManager::ControllerManager`: both containers start empty and the
constructor ends with `UpdateAvailableControllers()`. -/
def ControllerManager.new (sdlEnabled : Bool) (sdl : SDL) : ControllerManager × List Signal :=
  ControllerManager.UpdateAvailableControllers sdlEnabled sdl
    { available_controllers := [], open_controllers := [] }

/-- Embedding of `Controller::UpdateState`. -/
def Controller.UpdateState (c : Controller) : List Signal :=
  [Signal.StateChanged c.id]

/-- The static function `sdl2chiaki`. Its `switch` has four cases and no
`default`; for every other code control flows off the end of the function
without a `return`, and the caller goes on with whatever value it receives:
`unspecified` gives that value. -/
def sdl2chiaki (unspecified : SDL_GameControllerButton → ChiakiControllerButton)
    (sdlButton : SDL_GameControllerButton) : ChiakiControllerButton :=
  match sdlButton with
  | SDL_CONTROLLER_BUTTON_A => CHIAKI_CONTROLLER_BUTTON_CROSS
  | SDL_CONTROLLER_BUTTON_B => CHIAKI_CONTROLLER_BUTTON_MOON
  | SDL_CONTROLLER_BUTTON_X => CHIAKI_CONTROLLER_BUTTON_BOX
  | SDL_CONTROLLER_BUTTON_Y => CHIAKI_CONTROLLER_BUTTON_PYRAMID
  | other => unspecified other

/-- Embedding of `Controller::ButtonEvent`: the signals it emits, in order. -/
def Controller.ButtonEvent (unspecified : SDL_GameControllerButton → ChiakiControllerButton)
    (c : Controller) (event : SDL_ControllerButtonEvent) : List Signal :=
  let pressed : List Signal :=
    if event.type = SDL_CONTROLLERBUTTONDOWN then
      [Signal.ButtonPressed c.id (sdl2chiaki unspecified event.button)]
    else []
  pressed ++ c.UpdateState

/-- One statement `state.buttons |= pressed ? value : 0;` on the `uint32_t`
member `buttons`. -/
def orButton (buttons : Nat) (pressed : Bool) (value : Nat) : Nat :=
  buttons ||| ((if pressed then value else 0) % 4294967296)

/-- The conversion `(uint8_t)(axis >> 7)`. -/
def triggerByte (axis : Int) : Nat :=
  ((axis >>> 7) % 256).toNat

/-- Embedding of `Controller::GetState`. The argument `val` gives the numeric value of each
enumerator of `ChiakiControllerButton` (declared in `chiaki/controller.h`). -/
def Controller.GetState (sdlEnabled : Bool) (sdl : SDL) (val : ChiakiControllerButton → Nat)
    (c : Controller) : ChiakiControllerState :=
  let state : ChiakiControllerState :=
    { buttons := 0, l2_state := 0, r2_state := 0, left_x := 0, left_y := 0,
      right_x := 0, right_y := 0 }
  if sdlEnabled then
    match c.controller with
    | none => state
    | some h =>
      let get := sdl.SDL_GameControllerGetButton h
      let axis := sdl.SDL_GameControllerGetAxis h
      let b := state.buttons
      let b := orButton b (get SDL_CONTROLLER_BUTTON_A) (val (c.mapped CHIAKI_CONTROLLER_BUTTON_CROSS))
      let b := orButton b (get SDL_CONTROLLER_BUTTON_B) (val (c.mapped CHIAKI_CONTROLLER_BUTTON_MOON))
      let b := orButton b (get SDL_CONTROLLER_BUTTON_X) (val (c.mapped CHIAKI_CONTROLLER_BUTTON_BOX))
      let b := orButton b (get SDL_CONTROLLER_BUTTON_Y) (val (c.mapped CHIAKI_CONTROLLER_BUTTON_PYRAMID))
      let b := orButton b (get SDL_CONTROLLER_BUTTON_DPAD_LEFT) (val (c.mapped CHIAKI_CONTROLLER_BUTTON_DPAD_LEFT))
      let b := orButton b (get SDL_CONTROLLER_BUTTON_DPAD_RIGHT) (val (c.mapped CHIAKI_CONTROLLER_BUTTON_DPAD_RIGHT))
      let b := orButton b (get SDL_CONTROLLER_BUTTON_DPAD_UP) (val (c.mapped CHIAKI_CONTROLLER_BUTTON_DPAD_UP))
      let b := orButton b (get SDL_CONTROLLER_BUTTON_DPAD_DOWN) (val (c.mapped CHIAKI_CONTROLLER_BUTTON_DPAD_DOWN))
      let b := orButton b (get SDL_CONTROLLER_BUTTON_LEFTSHOULDER) (val (c.mapped CHIAKI_CONTROLLER_BUTTON_L1))
      let b := orButton b (get SDL_CONTROLLER_BUTTON_RIGHTSHOULDER) (val (c.mapped CHIAKI_CONTROLLER_BUTTON_R1))
      let b := orButton b (get SDL_CONTROLLER_BUTTON_LEFTSTICK) (val (c.mapped CHIAKI_CONTROLLER_BUTTON_L3))
      let b := orButton b (get SDL_CONTROLLER_BUTTON_RIGHTSTICK) (val (c.mapped CHIAKI_CONTROLLER_BUTTON_R3))
      let b := orButton b (get SDL_CONTROLLER_BUTTON_START) (val (c.mapped CHIAKI_CONTROLLER_BUTTON_OPTIONS))
      let b := orButton b (get SDL_CONTROLLER_BUTTON_BACK) (val (c.mapped CHIAKI_CONTROLLER_BUTTON_TOUCHPAD))
      let b := orButton b (get SDL_CONTROLLER_BUTTON_GUIDE) (val (c.mapped CHIAKI_CONTROLLER_BUTTON_PS))
      { buttons := b
        l2_state := triggerByte (axis SDL_CONTROLLER_AXIS_TRIGGERLEFT)
        r2_state := triggerByte (axis SDL_CONTROLLER_AXIS_TRIGGERRIGHT)
        left_x := axis SDL_CONTROLLER_AXIS_LEFTX
        left_y := axis SDL_CONTROLLER_AXIS_LEFTY
        right_x := axis SDL_CONTROLLER_AXIS_RIGHTX
        right_y := axis SDL_CONTROLLER_AXIS_RIGHTY }
  else state

/-! ## The capture dialog and the event loop

Qt behaviour used by the sources:
* `connect(sender, signal, context, functor)` is a direct connection: the
  functor runs inside `emit`, before `emit` returns, every time the signal is
  emitted while sender and context both exist;
* `deleteLater()` posts the deletion, which is carried out when control returns
  to the event loop, i.e. after the running slot (here `HandleEvents`, a timer
  slot) has returned; destroying an object removes its connections;
* `QDialog::accept` and `QDialog::reject` close the dialog with result
  `Accepted` and `Rejected`.

The registry stores the Controller objects; a live Controller is identified by
its device id. -/

/-- Embedding of `QDialog::DialogCode`. -/
inductive DialogCode where
  | Rejected
  | Accepted
  deriving DecidableEq, Repr

/-- State of a `SettingsGamepadCaptureDialog`: its member `button`, the result
it was closed with (`none` while it is open), and the Controller whose
`ButtonPressed` signal is connected to the functor made in the constructor. -/
structure SettingsGamepadCaptureDialog where
  button : ChiakiControllerButton
  result : Option DialogCode
  connection : Option Int
  deriving DecidableEq, Repr

/-- The manager singleton, the dialog, the posted deferred deletions and the
trace of all signals emitted so far. -/
structure Gui where
  manager : ControllerManager
  dialog : SettingsGamepadCaptureDialog
  deferredDelete : List Int
  emitted : List Signal
  deriving DecidableEq, Repr

/-- Embedding of `SettingsGamepadCaptureDialog::SettingsGamepadCaptureDialog`, run against
the manager singleton. -/
def SettingsGamepadCaptureDialog.new (sdlEnabled : Bool) (sdl : SDL) (m : ControllerManager) :
    Gui :=
  let closed : SettingsGamepadCaptureDialog :=
    { button := CHIAKI_CONTROLLER_BUTTON_NONE, result := none, connection := none }
  let available_controllers := m.GetAvailableControllers sdlEnabled
  match available_controllers with
  | [] => { manager := m, dialog := closed, deferredDelete := [], emitted := [] }
  | first :: _ =>
    match m.OpenController sdlEnabled sdl first with
    | (some controller, m1) =>
      { manager := m1, dialog := { closed with connection := some controller.id },
        deferredDelete := [], emitted := [] }
    | (none, m1) => { manager := m1, dialog := closed, deferredDelete := [], emitted := [] }

/-- Embedding of `SettingsGamepadCaptureDialog::SetCapturedButton`. -/
def Gui.SetCapturedButton (g : Gui) (b : ChiakiControllerButton) : Gui :=
  { g with
    dialog := { g.dialog with button := b, result := some DialogCode.Accepted }
    emitted := g.emitted ++ [Signal.ButtonCaptured b] }

/-- The functor connected in the dialog constructor:
`SetCapturedButton(b); controller->deleteLater();`. -/
def Gui.capturedSlot (g : Gui) (controller : Int) (b : ChiakiControllerButton) : Gui :=
  let g1 := g.SetCapturedButton b
  { g1 with deferredDelete := g1.deferredDelete ++ [controller] }

/-- The slot of the Close button, `QDialog::reject`. -/
def Gui.reject (g : Gui) : Gui :=
  { g with dialog := { g.dialog with result := some DialogCode.Rejected } }

/-- One `emit`: the signal is recorded and the connected functor, if any, runs
before the emission returns. -/
def Gui.emit (g : Gui) (s : Signal) : Gui :=
  let g1 := { g with emitted := g.emitted ++ [s] }
  match s with
  | Signal.ButtonPressed sender b =>
    if g1.dialog.connection = some sender then g1.capturedSlot sender b else g1
  | _ => g1

/-- Embedding of `ControllerManager::ControllerEvent`. -/
def Gui.ControllerEvent (unspecified : SDL_GameControllerButton → ChiakiControllerButton)
    (g : Gui) (event : SDL_ControllerButtonEvent) : Gui :=
  match g.manager.open_controllers.find event.which with
  | none => g
  | some controller => (controller.ButtonEvent unspecified event).foldl Gui.emit g

/-- The body of the `while(SDL_PollEvent(&event))` loop for one polled event;
`sdl` is the state of the native subsystem when the event is handled. -/
def Gui.handleEvent (unspecified : SDL_GameControllerButton → ChiakiControllerButton)
    (sdlEnabled : Bool) (g : Gui) (polled : SDL_Event × SDL) : Gui :=
  match polled.1.type with
  | SDL_JOYDEVICEADDED | SDL_JOYDEVICEREMOVED =>
    let r := g.manager.UpdateAvailableControllers sdlEnabled polled.2
    { g with manager := r.1, emitted := g.emitted ++ r.2 }
  | SDL_CONTROLLERBUTTONUP | SDL_CONTROLLERBUTTONDOWN =>
    g.ControllerEvent unspecified polled.1.cbutton
  | SDL_CONTROLLERAXISMOTION => g
  | SDL_OTHEREVENT => g

/-- Embedding of `ControllerManager::HandleEvents` on the events pending at one timer tick. -/
def Gui.HandleEvents (unspecified : SDL_GameControllerButton → ChiakiControllerButton)
    (sdlEnabled : Bool) (g : Gui) (pending : List (SDL_Event × SDL)) : Gui :=
  if sdlEnabled then
    match pending with
    | [] => g
    | polled :: rest =>
      Gui.HandleEvents unspecified sdlEnabled (g.handleEvent unspecified sdlEnabled polled) rest
  else g

/-- Control returns to the event loop: every posted deletion is carried out.
Deleting a Controller runs its destructor and removes its connections. -/
def Gui.returnToEventLoop (sdlEnabled : Bool) (g : Gui) : Gui :=
  let g1 := g.deferredDelete.foldl
    (fun (acc : Gui) (id : Int) =>
      match acc.manager.open_controllers.find id with
      | none => acc
      | some controller =>
        { acc with
          manager := controller.destroy sdlEnabled acc.manager
          dialog :=
            if acc.dialog.connection = some id then { acc.dialog with connection := none }
            else acc.dialog })
    g
  { g1 with deferredDelete := [] }

/-! ## Definitions that follow the specification's wording -/

/-- The specification's `mapped`: `m[b]` when `b` is a key of `m`, and `b`
otherwise. -/
def spec_mapped (m : ButtonMap) (b : ChiakiControllerButton) : ChiakiControllerButton :=
  match m.find? (fun kv => kv.1 == b) with
  | some kv => kv.2
  | none => b

/-- The fifteen queried native buttons with the logical button of each, as the
specification lists them. -/
def spec_queriedButtons : List (SDL_GameControllerButton × ChiakiControllerButton) :=
  [ (SDL_CONTROLLER_BUTTON_A, CHIAKI_CONTROLLER_BUTTON_CROSS),
    (SDL_CONTROLLER_BUTTON_B, CHIAKI_CONTROLLER_BUTTON_MOON),
    (SDL_CONTROLLER_BUTTON_X, CHIAKI_CONTROLLER_BUTTON_BOX),
    (SDL_CONTROLLER_BUTTON_Y, CHIAKI_CONTROLLER_BUTTON_PYRAMID),
    (SDL_CONTROLLER_BUTTON_DPAD_LEFT, CHIAKI_CONTROLLER_BUTTON_DPAD_LEFT),
    (SDL_CONTROLLER_BUTTON_DPAD_RIGHT, CHIAKI_CONTROLLER_BUTTON_DPAD_RIGHT),
    (SDL_CONTROLLER_BUTTON_DPAD_UP, CHIAKI_CONTROLLER_BUTTON_DPAD_UP),
    (SDL_CONTROLLER_BUTTON_DPAD_DOWN, CHIAKI_CONTROLLER_BUTTON_DPAD_DOWN),
    (SDL_CONTROLLER_BUTTON_LEFTSHOULDER, CHIAKI_CONTROLLER_BUTTON_L1),
    (SDL_CONTROLLER_BUTTON_RIGHTSHOULDER, CHIAKI_CONTROLLER_BUTTON_R1),
    (SDL_CONTROLLER_BUTTON_LEFTSTICK, CHIAKI_CONTROLLER_BUTTON_L3),
    (SDL_CONTROLLER_BUTTON_RIGHTSTICK, CHIAKI_CONTROLLER_BUTTON_R3),
    (SDL_CONTROLLER_BUTTON_START, CHIAKI_CONTROLLER_BUTTON_OPTIONS),
    (SDL_CONTROLLER_BUTTON_BACK, CHIAKI_CONTROLLER_BUTTON_TOUCHPAD),
    (SDL_CONTROLLER_BUTTON_GUIDE, CHIAKI_CONTROLLER_BUTTON_PS) ]

/-- The specification's button mask: the bitwise OR, over the queried native
buttons that are pressed, of the value of the remapped logical button. -/
def spec_buttonMask (pressed : SDL_GameControllerButton → Bool)
    (val : ChiakiControllerButton → Nat) (m : ButtonMap) : Nat :=
  ((spec_queriedButtons.filter (fun p => pressed p.1)).map
    (fun p => val (spec_mapped m p.2))).foldl (fun acc v => acc ||| v) 0

/-! ## Concrete data used in the closed statements -/

/-- A native subsystem with one game controller, instance id 7, that opens. -/
def sdlOnePad : SDL :=
  { joysticks := [{ instanceID := 7, isGameController := true, opened := some 0 }]
    SDL_GameControllerGetButton := fun _ b => decide (b = SDL_CONTROLLER_BUTTON_A)
    SDL_GameControllerGetAxis := fun _ _ => 0
    SDL_GameControllerName := fun _ => "pad"
    SDL_GameControllerGetAttached := fun _ => true }

/-- A native subsystem with no device attached. -/
def sdlNoPad : SDL :=
  { sdlOnePad with joysticks := [] }

/-- A choice of enumerator values, one bit per logical button (those of
libchiaki), used in the closed statements. -/
def chiakiVal : ChiakiControllerButton → Nat
  | CHIAKI_CONTROLLER_BUTTON_NONE => 0
  | CHIAKI_CONTROLLER_BUTTON_CROSS => 1
  | CHIAKI_CONTROLLER_BUTTON_MOON => 2
  | CHIAKI_CONTROLLER_BUTTON_BOX => 4
  | CHIAKI_CONTROLLER_BUTTON_PYRAMID => 8
  | CHIAKI_CONTROLLER_BUTTON_DPAD_LEFT => 16
  | CHIAKI_CONTROLLER_BUTTON_DPAD_RIGHT => 32
  | CHIAKI_CONTROLLER_BUTTON_DPAD_UP => 64
  | CHIAKI_CONTROLLER_BUTTON_DPAD_DOWN => 128
  | CHIAKI_CONTROLLER_BUTTON_L1 => 256
  | CHIAKI_CONTROLLER_BUTTON_R1 => 512
  | CHIAKI_CONTROLLER_BUTTON_L3 => 1024
  | CHIAKI_CONTROLLER_BUTTON_R3 => 2048
  | CHIAKI_CONTROLLER_BUTTON_OPTIONS => 4096
  | CHIAKI_CONTROLLER_BUTTON_TOUCHPAD => 16384
  | CHIAKI_CONTROLLER_BUTTON_PS => 32768

/-- The manager singleton as constructed when one pad (id 7) is attached. -/
def managerOnePad : ControllerManager :=
  (ControllerManager.new true sdlOnePad).1

/-- The capture dialog right after construction, one pad (id 7) attached. -/
def dialogOpened : Gui :=
  SettingsGamepadCaptureDialog.new true sdlOnePad managerOnePad

/-- One possible outcome of the missing `return` of `sdl2chiaki`: the "none"
button for every unhandled code. -/
def unspecifiedNone : SDL_GameControllerButton → ChiakiControllerButton :=
  fun _ => CHIAKI_CONTROLLER_BUTTON_NONE

/-- A button-down event of device 7. -/
def buttonDown (button : SDL_GameControllerButton) : SDL_Event :=
  { type := SDL_CONTROLLERBUTTONDOWN, which := 7, button := button }

/-! ## Container lemmas -/

theorem QMap.contains_assign_self {V : Type} (m : QMap V) (key : Int) (value : V) :
    QMap.contains (QMap.assign m key value) key = true := by
  simp [QMap.assign, QMap.contains]

theorem QSet.ne_eq_false_iff (a b : QSet) :
    QSet.ne a b = false ↔ a.toFinset = b.toFinset := by
  simp only [QSet.ne, Bool.not_eq_false_eq_eq_true, Bool.and_eq_true, List.all_eq_true,
    decide_eq_true_eq, Finset.ext_iff, List.mem_toFinset]
  constructor
  · rintro ⟨h1, h2⟩ x
    exact ⟨h1 x, h2 x⟩
  · intro h
    exact ⟨fun x hx => (h x).1 hx, fun x hx => (h x).2 hx⟩

theorem Controller.mapped_SetMapping (c : Controller) (m : ButtonMap)
    (b : ChiakiControllerButton) : (c.SetMapping m).mapped b = spec_mapped m b := by
  simp only [Controller.mapped, Controller.SetMapping, spec_mapped]
  induction m with
  | nil => rfl
  | cons kv rest ih =>
    by_cases hk : kv.1 = b
    · simp [ButtonMap.value, List.find?_cons, hk]
    · simpa [ButtonMap.value, List.find?_cons, hk] using ih

theorem orButton_of_lt (buttons value : Nat) (pressed : Bool) (h : value < 4294967296) :
    orButton buttons pressed value = if pressed then buttons ||| value else buttons := by
  cases pressed
  · simp [orButton]
  · simp [orButton, Nat.mod_eq_of_lt h]

theorem foldl_or_filter_map {α : Type} (l : List α) (p : α → Bool) (f : α → Nat)
    (hf : ∀ x, f x < 4294967296) (acc : Nat) :
    ((l.filter p).map f).foldl (fun a v => a ||| v) acc
      = l.foldl (fun a x => orButton a (p x) (f x)) acc := by
  induction l generalizing acc with
  | nil => rfl
  | cons x rest ih =>
    rw [List.foldl_cons, orButton_of_lt _ _ _ (hf x)]
    cases hp : p x
    · simpa [List.filter_cons, hp] using ih acc
    · simpa [List.filter_cons, hp] using ih (acc ||| f x)

theorem mem_enumerateControllers (sdl : SDL) (x : Int) :
    x ∈ enumerateControllers sdl
      ↔ ∃ j ∈ sdl.joysticks, j.isGameController = true ∧ j.instanceID = x := by
  have key : ∀ (l : List SDL_Joystick) (acc : QSet),
      x ∈ l.foldl
          (fun current_controllers j =>
            if !j.isGameController then current_controllers
            else QSet.insert current_controllers j.instanceID)
          acc
        ↔ x ∈ acc ∨ ∃ j ∈ l, j.isGameController = true ∧ j.instanceID = x := by
    intro l
    induction l with
    | nil => intro acc; simp
    | cons j rest ih =>
      intro acc
      rw [List.foldl_cons, ih]
      have hex : (∃ k ∈ j :: rest, k.isGameController = true ∧ k.instanceID = x)
          ↔ ((j.isGameController = true ∧ j.instanceID = x)
              ∨ ∃ k ∈ rest, k.isGameController = true ∧ k.instanceID = x) := by
        simp
      rw [hex]
      cases hg : j.isGameController
      · simp
      · have hins : ∀ y : Int, y ∈ QSet.insert acc j.instanceID ↔ (y ∈ acc ∨ y = j.instanceID) := by
          intro y
          by_cases hm : j.instanceID ∈ acc
          · simp only [QSet.insert, hm, if_true]
            constructor
            · exact Or.inl
            · rintro (h | h)
              · exact h
              · exact h ▸ hm
          · simp [QSet.insert, hm]
        simp only [Bool.not_true, Bool.false_eq_true, if_false, hins, true_and]
        constructor
        · rintro ((h | h) | h)
          · exact Or.inl h
          · exact Or.inr (Or.inl h.symm)
          · exact Or.inr (Or.inr h)
        · rintro (h | h | h)
          · exact Or.inl (Or.inl h)
          · exact Or.inl (Or.inr h.symm)
          · exact Or.inr h
  simpa [enumerateControllers] using key sdl.joysticks []

/-- An event that is not a button-down event makes `ButtonEvent` emit "state
changed" once and nothing else. -/
theorem Controller.ButtonEvent_of_not_down
    (unspecified : SDL_GameControllerButton → ChiakiControllerButton) (c : Controller)
    (event : SDL_ControllerButtonEvent) (h : event.type ≠ SDL_CONTROLLERBUTTONDOWN) :
    c.ButtonEvent unspecified event = [Signal.StateChanged c.id] := by
  simp [Controller.ButtonEvent, h, Controller.UpdateState]

/-- A button-down event makes `ButtonEvent` emit "button pressed" with the
result of `sdl2chiaki`, then "state changed". -/
theorem Controller.ButtonEvent_of_down
    (unspecified : SDL_GameControllerButton → ChiakiControllerButton) (c : Controller)
    (event : SDL_ControllerButtonEvent) (h : event.type = SDL_CONTROLLERBUTTONDOWN) :
    c.ButtonEvent unspecified event
      = [Signal.ButtonPressed c.id (sdl2chiaki unspecified event.button),
          Signal.StateChanged c.id] := by
  simp [Controller.ButtonEvent, h, Controller.UpdateState]

/-- The signals of one recompute: none when the enumerated set is the stored
one, one "available controllers updated" otherwise. -/
theorem ControllerManager.UpdateAvailableControllers_signals (sdl : SDL)
    (m : ControllerManager) :
    (m.UpdateAvailableControllers true sdl).2
      = if (enumerateControllers sdl).toFinset = m.available_controllers.toFinset then []
        else [Signal.AvailableControllersUpdated] := by
  unfold ControllerManager.UpdateAvailableControllers
  by_cases h : (enumerateControllers sdl).toFinset = m.available_controllers.toFinset
  · have hne : QSet.ne (enumerateControllers sdl) m.available_controllers = false :=
      (QSet.ne_eq_false_iff _ _).2 h
    simp [h, hne]
  · have hne : QSet.ne (enumerateControllers sdl) m.available_controllers = true := by
      cases hq : QSet.ne (enumerateControllers sdl) m.available_controllers
      · exact absurd ((QSet.ne_eq_false_iff _ _).1 hq) h
      · rfl
    simp [h, hne]

/-- After one recompute the stored set is the enumerated set, and the registry
is untouched. -/
theorem ControllerManager.UpdateAvailableControllers_stored (sdl : SDL)
    (m : ControllerManager) :
    (m.UpdateAvailableControllers true sdl).1.available_controllers.toFinset
        = (enumerateControllers sdl).toFinset
    ∧ (m.UpdateAvailableControllers true sdl).1.open_controllers = m.open_controllers := by
  unfold ControllerManager.UpdateAvailableControllers
  cases hq : QSet.ne (enumerateControllers sdl) m.available_controllers
  · have h := (QSet.ne_eq_false_iff _ _).1 hq
    simp [hq, h]
  · simp [hq]

/-! ## The claims -/

/-- C1: for every Manager state and every device id `d` that is not in the
open-controller registry, the first `OpenController(d)` returns a Controller,
the second one (no Controller destroyed in between) returns null, and the
second call leaves the registry unchanged. -/
theorem OpenController_twice (sdlEnabled : Bool) (sdl : SDL) (m : ControllerManager) (d : Int)
    (h : m.open_controllers.contains d = false) :
    (m.OpenController sdlEnabled sdl d).1.isSome = true
    ∧ ((m.OpenController sdlEnabled sdl d).2.OpenController sdlEnabled sdl d).1 = none
    ∧ ((m.OpenController sdlEnabled sdl d).2.OpenController sdlEnabled sdl d).2
        = (m.OpenController sdlEnabled sdl d).2 := by
  have h1 : m.OpenController sdlEnabled sdl d
      = (some (Controller.new sdlEnabled sdl d),
          { m with open_controllers :=
              m.open_controllers.assign d (Controller.new sdlEnabled sdl d) }) := by
    simp [ControllerManager.OpenController, h]
  have h2 : QMap.contains (QMap.assign m.open_controllers d (Controller.new sdlEnabled sdl d)) d
      = true := QMap.contains_assign_self _ _ _
  rw [h1]
  simp [ControllerManager.OpenController, h2]

/-- Witness of C1 on the manager with one attached pad and an empty registry. -/
theorem OpenController_twice_witness :
    managerOnePad.open_controllers.contains 7 = false
    ∧ (managerOnePad.OpenController true sdlOnePad 7).1.isSome = true
    ∧ ((managerOnePad.OpenController true sdlOnePad 7).2.OpenController true sdlOnePad 7).1 = none
    ∧ ((managerOnePad.OpenController true sdlOnePad 7).2.OpenController true sdlOnePad 7).2
        = (managerOnePad.OpenController true sdlOnePad 7).2 :=
  ⟨by decide, OpenController_twice true sdlOnePad managerOnePad 7 (by decide)⟩

/-- C3, as stated, fails: with the table CROSS -> MOON installed, a button-down
event for native `A` carries CROSS (the translated button), not MOON (the
translated button remapped through the table). -/
theorem ButtonEvent_payload_not_remapped :
    ¬ (pressedPayloads
          (((Controller.new true sdlOnePad 7).SetMapping
              [(CHIAKI_CONTROLLER_BUTTON_CROSS, CHIAKI_CONTROLLER_BUTTON_MOON)]).ButtonEvent
            unspecifiedNone
            { type := SDL_CONTROLLERBUTTONDOWN, which := 7, button := SDL_CONTROLLER_BUTTON_A })
        = [((Controller.new true sdlOnePad 7).SetMapping
              [(CHIAKI_CONTROLLER_BUTTON_CROSS, CHIAKI_CONTROLLER_BUTTON_MOON)]).mapped
            CHIAKI_CONTROLLER_BUTTON_CROSS]) := by
  decide

/-- C3, amended: for every Controller, every remap table installed by
`SetMapping` and every button-down event for native A, B, X or Y,
`ButtonEvent` emits exactly one "button pressed" signal, followed by "state
changed", and its payload is the translated button itself (CROSS, MOON, BOX,
PYRAMID), whatever the remap table. -/
theorem ButtonEvent_down_translatable
    (unspecified : SDL_GameControllerButton → ChiakiControllerButton)
    (c : Controller) (m : ButtonMap) (which : Int) :
    (c.SetMapping m).ButtonEvent unspecified
        { type := SDL_CONTROLLERBUTTONDOWN, which := which, button := SDL_CONTROLLER_BUTTON_A }
      = [Signal.ButtonPressed c.id CHIAKI_CONTROLLER_BUTTON_CROSS, Signal.StateChanged c.id]
    ∧ (c.SetMapping m).ButtonEvent unspecified
        { type := SDL_CONTROLLERBUTTONDOWN, which := which, button := SDL_CONTROLLER_BUTTON_B }
      = [Signal.ButtonPressed c.id CHIAKI_CONTROLLER_BUTTON_MOON, Signal.StateChanged c.id]
    ∧ (c.SetMapping m).ButtonEvent unspecified
        { type := SDL_CONTROLLERBUTTONDOWN, which := which, button := SDL_CONTROLLER_BUTTON_X }
      = [Signal.ButtonPressed c.id CHIAKI_CONTROLLER_BUTTON_BOX, Signal.StateChanged c.id]
    ∧ (c.SetMapping m).ButtonEvent unspecified
        { type := SDL_CONTROLLERBUTTONDOWN, which := which, button := SDL_CONTROLLER_BUTTON_Y }
      = [Signal.ButtonPressed c.id CHIAKI_CONTROLLER_BUTTON_PYRAMID,
          Signal.StateChanged c.id] := by
  refine ⟨rfl, rfl, rfl, rfl⟩

/-- C4: for every native button event passed to `ButtonEvent` (any event type,
any native button code, whatever value the missing `return` of `sdl2chiaki`
produces): a button-up event emits no "button pressed"; a button-down event
emits exactly one and no other event emits any; every event emits exactly one
"state changed", and it is the last signal of the call, hence after the
"button pressed" when there is one. -/
theorem ButtonEvent_signals
    (unspecified : SDL_GameControllerButton → ChiakiControllerButton)
    (c : Controller) (event : SDL_ControllerButtonEvent) :
    (event.type = SDL_CONTROLLERBUTTONUP → pressedPayloads (c.ButtonEvent unspecified event) = [])
    ∧ (pressedPayloads (c.ButtonEvent unspecified event)).length
        = (if event.type = SDL_CONTROLLERBUTTONDOWN then 1 else 0)
    ∧ stateChangedCount (c.ButtonEvent unspecified event) = 1
    ∧ (c.ButtonEvent unspecified event).getLast? = some (Signal.StateChanged c.id)
    ∧ ∃ pressed : List Signal,
        c.ButtonEvent unspecified event = pressed ++ [Signal.StateChanged c.id]
        ∧ stateChangedCount pressed = 0 := by
  by_cases hd : event.type = SDL_CONTROLLERBUTTONDOWN
  · rw [Controller.ButtonEvent_of_down unspecified c event hd]
    refine ⟨?_, ?_, ?_, ?_, ⟨[Signal.ButtonPressed c.id (sdl2chiaki unspecified event.button)],
      rfl, rfl⟩⟩
    · intro hu; rw [hd] at hu; cases hu
    · simp [pressedPayloads, hd]
    · simp [stateChangedCount]
    · simp
  · rw [Controller.ButtonEvent_of_not_down unspecified c event hd]
    refine ⟨?_, ?_, ?_, ?_, ⟨[], rfl, rfl⟩⟩
    · intro _; rfl
    · simp [pressedPayloads, hd]
    · simp [stateChangedCount]
    · simp

/-- Witness of C4: a button-up event and a button-down event for the d-pad up
button, a code `sdl2chiaki` has no case for. -/
theorem ButtonEvent_signals_witness :
    pressedPayloads ((Controller.new true sdlOnePad 7).ButtonEvent unspecifiedNone
        { type := SDL_CONTROLLERBUTTONUP, which := 7, button := SDL_CONTROLLER_BUTTON_A }) = []
    ∧ (Controller.new true sdlOnePad 7).ButtonEvent unspecifiedNone
        { type := SDL_CONTROLLERBUTTONDOWN, which := 7, button := SDL_CONTROLLER_BUTTON_DPAD_UP }
      = [Signal.ButtonPressed 7 CHIAKI_CONTROLLER_BUTTON_NONE, Signal.StateChanged 7]
    ∧ stateChangedCount ((Controller.new true sdlOnePad 7).ButtonEvent unspecifiedNone
        { type := SDL_CONTROLLERBUTTONDOWN, which := 7, button := SDL_CONTROLLER_BUTTON_DPAD_UP })
      = 1 :=
  ⟨(ButtonEvent_signals unspecifiedNone (Controller.new true sdlOnePad 7)
      { type := SDL_CONTROLLERBUTTONUP, which := 7, button := SDL_CONTROLLER_BUTTON_A }).1 rfl,
    by decide, by decide⟩

/-- C5: on a recompute with the backend compiled in, "available controllers
updated" is emitted exactly once when the enumerated set differs from the
stored set and not at all when the two sets are equal; the enumerated set is
the stored set afterwards, so the next recompute emits nothing if it finds the
same set of device ids again and once if it finds another set; the same holds
for a discovery tick that drains one device-added or device-removed event. -/
theorem UpdateAvailableControllers_emits (sdl : SDL) (m : ControllerManager) :
    ((m.UpdateAvailableControllers true sdl).2
      = if (enumerateControllers sdl).toFinset = m.available_controllers.toFinset then []
        else [Signal.AvailableControllersUpdated])
    ∧ (m.UpdateAvailableControllers true sdl).1.available_controllers.toFinset
        = (enumerateControllers sdl).toFinset
    ∧ (m.UpdateAvailableControllers true sdl).1.open_controllers = m.open_controllers
    ∧ (∀ next : SDL,
        (enumerateControllers next).toFinset = (enumerateControllers sdl).toFinset →
        ((m.UpdateAvailableControllers true sdl).1.UpdateAvailableControllers true next).2 = [])
    ∧ (∀ next : SDL,
        (enumerateControllers next).toFinset ≠ (enumerateControllers sdl).toFinset →
        ((m.UpdateAvailableControllers true sdl).1.UpdateAvailableControllers true next).2
          = [Signal.AvailableControllersUpdated])
    ∧ ∀ (unspecified : SDL_GameControllerButton → ChiakiControllerButton) (g : Gui)
        (event : SDL_Event), g.manager = m →
        (event.type = SDL_JOYDEVICEADDED ∨ event.type = SDL_JOYDEVICEREMOVED) →
        (Gui.HandleEvents unspecified true g [(event, sdl)]).emitted
          = g.emitted ++
              (if (enumerateControllers sdl).toFinset = m.available_controllers.toFinset then []
               else [Signal.AvailableControllersUpdated])
        ∧ (Gui.HandleEvents unspecified true g [(event, sdl)]).manager
          = (m.UpdateAvailableControllers true sdl).1 := by
  have hstored := ControllerManager.UpdateAvailableControllers_stored sdl m
  refine ⟨ControllerManager.UpdateAvailableControllers_signals sdl m, hstored.1, hstored.2,
    ?_, ?_, ?_⟩
  · intro next hsame
    rw [ControllerManager.UpdateAvailableControllers_signals, hstored.1, if_pos hsame]
  · intro next hdiff
    rw [ControllerManager.UpdateAvailableControllers_signals, hstored.1, if_neg hdiff]
  · intro unspecified g event hg ht
    subst hg
    rw [← ControllerManager.UpdateAvailableControllers_signals]
    rcases ht with ht | ht <;>
      simp [Gui.HandleEvents, Gui.handleEvent, ht]

/-- Witness of C5: the stored set is [7]. The pad is found gone (one emission,
the stored set becomes empty) and a second recompute that again finds no
device emits nothing; a device-added event that arrives while the same pad is
the only device emits nothing. -/
theorem UpdateAvailableControllers_emits_witness :
    dialogOpened.manager.available_controllers = [7]
    ∧ (dialogOpened.manager.UpdateAvailableControllers true sdlNoPad).2
        = [Signal.AvailableControllersUpdated]
    ∧ (dialogOpened.manager.UpdateAvailableControllers true sdlNoPad).1.available_controllers = []
    ∧ ((dialogOpened.manager.UpdateAvailableControllers true sdlNoPad).1.UpdateAvailableControllers
          true sdlNoPad).2 = []
    ∧ (Gui.HandleEvents unspecifiedNone true dialogOpened
          [({ type := SDL_JOYDEVICEADDED, which := 0, button := SDL_CONTROLLER_BUTTON_A },
            sdlOnePad)]).emitted = [] :=
  ⟨by decide, by decide, by decide,
    (UpdateAvailableControllers_emits sdlNoPad dialogOpened.manager).2.2.2.1 sdlNoPad rfl,
    by decide⟩

/-- C6: with the backend compiled in, on a Controller that holds a native
handle and has the remap table `m` installed, the button mask returned by
`GetState` is the bitwise OR, over the fifteen queried native buttons that are
pressed, of the value of the remapped logical button (enumerator values fit
the 32-bit mask). -/
theorem GetState_buttons (sdl : SDL) (val : ChiakiControllerButton → Nat) (c : Controller)
    (m : ButtonMap) (handle : SDL_GameController)
    (hval : ∀ b, val b < 4294967296) (hc : c.controller = some handle) :
    ((c.SetMapping m).GetState true sdl val).buttons
      = spec_buttonMask (sdl.SDL_GameControllerGetButton handle) val m := by
  have hc1 : (c.SetMapping m).controller = some handle := hc
  unfold spec_buttonMask
  rw [foldl_or_filter_map spec_queriedButtons
    (fun p => sdl.SDL_GameControllerGetButton handle p.1)
    (fun p => val (spec_mapped m p.2)) (fun p => hval _) 0]
  simp only [Controller.GetState, hc1, if_true, Controller.mapped_SetMapping,
    spec_queriedButtons, List.foldl_cons, List.foldl_nil]

/-- Witness of C6: the pad reports only `A` pressed and the table sends CROSS
to PS. -/
theorem GetState_buttons_witness :
    (∀ b, chiakiVal b < 4294967296)
    ∧ (Controller.new true sdlOnePad 7).controller = some 0
    ∧ (((Controller.new true sdlOnePad 7).SetMapping
          [(CHIAKI_CONTROLLER_BUTTON_CROSS, CHIAKI_CONTROLLER_BUTTON_PS)]).GetState
        true sdlOnePad chiakiVal).buttons
      = spec_buttonMask (sdlOnePad.SDL_GameControllerGetButton 0) chiakiVal
          [(CHIAKI_CONTROLLER_BUTTON_CROSS, CHIAKI_CONTROLLER_BUTTON_PS)] :=
  ⟨by intro b; cases b <;> decide, by decide,
    GetState_buttons sdlOnePad chiakiVal (Controller.new true sdlOnePad 7)
      [(CHIAKI_CONTROLLER_BUTTON_CROSS, CHIAKI_CONTROLLER_BUTTON_PS)] 0
      (by intro b; cases b <;> decide) (by decide)⟩

/-- C7 at the failing input: the dialog has opened device 7 and one discovery
tick drains two button-down events for it (A, then B); the dialog emits
"button captured" twice, once per event, before the deferred release of the
Controller takes effect. -/
theorem ButtonCaptured_twice_in_one_tick :
    capturedPayloads
        (Gui.HandleEvents unspecifiedNone true dialogOpened
          [(buttonDown SDL_CONTROLLER_BUTTON_A, sdlOnePad),
           (buttonDown SDL_CONTROLLER_BUTTON_B, sdlOnePad)]).emitted
      = [CHIAKI_CONTROLLER_BUTTON_CROSS, CHIAKI_CONTROLLER_BUTTON_MOON] := by
  decide

/-- C8 at the failing input: the dialog has opened device 7 and the user clicks
Close; the dialog closes with `Rejected`, nothing is posted for deletion, and
after control returns to the event loop device 7 is still registered, so
`OpenController(7)` returns null. -/
theorem reject_keeps_controller_registered :
    dialogOpened.dialog.connection = some 7
    ∧ (dialogOpened.reject.returnToEventLoop true).dialog.result = some DialogCode.Rejected
    ∧ dialogOpened.reject.deferredDelete = []
    ∧ (dialogOpened.reject.returnToEventLoop true).manager.open_controllers.contains 7 = true
    ∧ ((dialogOpened.reject.returnToEventLoop true).manager.OpenController
          true sdlOnePad 7).1 = none := by
  decide

/-- C9, as stated, fails: a Controller constructed for device 7 while no device
is attached holds no native handle, yet `GetDeviceID()` returns 7, not -1. -/
theorem GetDeviceID_without_handle_not_invalid :
    (Controller.new true sdlNoPad 7).controller = none
    ∧ ¬ ((Controller.new true sdlNoPad 7).GetDeviceID true = -1
          ∧ (Controller.new true sdlNoPad 7).GetName true sdlNoPad = "") := by
  decide

/-- C9, amended: for every Controller constructed for a device id `d` for which
no native handle was obtained, `GetName()` returns the empty name, and
`GetDeviceID()` returns `d` itself when the backend is compiled in (and -1 when
it is not). -/
theorem GetDeviceID_GetName_without_handle (sdlEnabled : Bool) (sdl : SDL) (d : Int)
    (h : (Controller.new sdlEnabled sdl d).controller = none) :
    (Controller.new sdlEnabled sdl d).GetDeviceID sdlEnabled = (if sdlEnabled then d else -1)
    ∧ (Controller.new sdlEnabled sdl d).GetName sdlEnabled sdl = "" := by
  refine ⟨by simp [Controller.GetDeviceID, Controller.new], ?_⟩
  unfold Controller.GetName
  rw [h]
  cases sdlEnabled <;> rfl

/-- Witness of the amended C9: device 7 with no device attached. -/
theorem GetDeviceID_GetName_without_handle_witness :
    (Controller.new true sdlNoPad 7).controller = none
    ∧ (Controller.new true sdlNoPad 7).GetDeviceID true = (if true then 7 else -1)
    ∧ (Controller.new true sdlNoPad 7).GetName true sdlNoPad = "" :=
  ⟨by decide, GetDeviceID_GetName_without_handle true sdlNoPad 7 (by decide)⟩

/-- C10: for every Controller that holds no native handle and every remap
table, `GetState()` returns button mask 0, both trigger values 0 and the four
stick axis values 0. -/
theorem GetState_disconnected (sdlEnabled : Bool) (sdl : SDL)
    (val : ChiakiControllerButton → Nat) (c : Controller) (m : ButtonMap)
    (h : c.controller = none) :
    (c.SetMapping m).GetState sdlEnabled sdl val
      = { buttons := 0, l2_state := 0, r2_state := 0, left_x := 0, left_y := 0,
          right_x := 0, right_y := 0 } := by
  have h1 : (c.SetMapping m).controller = none := h
  unfold Controller.GetState
  rw [h1]
  cases sdlEnabled <;> rfl

/-- Witness of C10: device 7 with no device attached and a non-trivial table. -/
theorem GetState_disconnected_witness :
    (Controller.new true sdlNoPad 7).controller = none
    ∧ ((Controller.new true sdlNoPad 7).SetMapping
          [(CHIAKI_CONTROLLER_BUTTON_CROSS, CHIAKI_CONTROLLER_BUTTON_PS)]).GetState
        true sdlNoPad chiakiVal
      = { buttons := 0, l2_state := 0, r2_state := 0, left_x := 0, left_y := 0,
          right_x := 0, right_y := 0 } :=
  ⟨by decide,
    GetState_disconnected true sdlNoPad chiakiVal (Controller.new true sdlNoPad 7)
      [(CHIAKI_CONTROLLER_BUTTON_CROSS, CHIAKI_CONTROLLER_BUTTON_PS)] (by decide)⟩

end Chiaki
